import Mathlib

/-!
Verification development for the Linkora DEX utilities repository.

The definitions below are a shallow embedding of the Python sources:

* `src/oracul/price_generator_cly_debug.py` — the oracle price generator
  with its adaptive batching / gas controller and retry logic;
* `src/keeper/diagnostics.py`, `src/keeper/keeper_service.py`,
  `src/keeper/config.py` — the keeper's PnL / liquidation checks and
  configuration validation.

Python floats are modelled as rationals (`ℚ`), Python unbounded ints as
`ℤ`/`ℕ`.  `int(x)` (truncation toward zero) is modelled by `py_int`.
-/

/-- Truncation toward zero, the semantics of Python's int() applied to a
nonintegral number. -/
def py_int (q : ℚ) : ℤ := if q < 0 then ⌈q⌉ else ⌊q⌋

/-- Embedding of the dataclass PriceConfig (price_generator_cly_debug.py,
lines 45-61).  Floats become rationals, ints stay integers. -/
structure PriceConfig where
  update_interval : ℕ
  display_interval : ℕ
  history_size : ℕ
  volatility_multiplier : ℚ
  enable_volatile_events : Bool
  volatile_event_probability : ℚ
  max_price_change : ℚ
  min_price : ℚ
  base_gas_limit : ℕ
  max_gas_limit : ℕ
  base_gas_price_gwei : ℤ
  max_gas_price_gwei : ℤ
  max_batch_size : ℕ
  retry_attempts : ℕ
  retry_delay_base : ℚ
deriving DecidableEq

/-- The default values of PriceConfig as written in the dataclass. -/
def defaultPriceConfig : PriceConfig :=
  { update_interval := 50
    display_interval := 10
    history_size := 100
    volatility_multiplier := 1
    enable_volatile_events := true
    volatile_event_probability := 1/1000
    max_price_change := 1/2
    min_price := 1/100
    base_gas_limit := 800000
    max_gas_limit := 1500000
    base_gas_price_gwei := 20
    max_gas_price_gwei := 100
    max_batch_size := 6
    retry_attempts := 5
    retry_delay_base := 1 }

/-- The mutable adaptive fields of PriceGenerator (lines 111-113):
self.failed_attempts, self.current_batch_size,
self.adaptive_gas_multiplier. -/
structure AdaptiveState where
  failed_attempts : ℕ
  current_batch_size : ℕ
  adaptive_gas_multiplier : ℚ
deriving DecidableEq

/-- The initial adaptive state set in PriceGenerator.__init__:
failed_attempts = 0, current_batch_size = 6,
adaptive_gas_multiplier = 1.0. -/
def initState : AdaptiveState :=
  { failed_attempts := 0, current_batch_size := 6, adaptive_gas_multiplier := 1 }

/-- Embedding of PriceGenerator.adjust_batch_size_on_failure
(lines 392-403).  Increments failed_attempts; once it is ≥ 2, sets
current_batch_size to max(2, batch-1) and the gas multiplier to
min(2.0, gm*1.2); once it is ≥ 4, forces batch size 1 and multiplier
2.0. -/
def adjust_batch_size_on_failure (s : AdaptiveState) : AdaptiveState :=
  let fa := s.failed_attempts + 1
  let s1 : AdaptiveState :=
    if 2 ≤ fa then
      { failed_attempts := fa
        current_batch_size := max 2 (s.current_batch_size - 1)
        adaptive_gas_multiplier := min 2 (s.adaptive_gas_multiplier * (6/5)) }
    else
      { s with failed_attempts := fa }
  if 4 ≤ fa then
    { s1 with current_batch_size := 1, adaptive_gas_multiplier := 2 }
  else s1

/-- Embedding of PriceGenerator.reset_adaptive_params_on_success
(lines 405-413).  Decrements failed_attempts toward 0; when it reaches 0,
grows the batch size by one up to max_batch_size and relaxes the gas
multiplier by 0.95 with floor 1.0. -/
def reset_adaptive_params_on_success (cfg : PriceConfig) (s : AdaptiveState) : AdaptiveState :=
  let fa := if 0 < s.failed_attempts then s.failed_attempts - 1 else s.failed_attempts
  if fa = 0 then
    { failed_attempts := fa
      current_batch_size :=
        if s.current_batch_size < cfg.max_batch_size then
          min cfg.max_batch_size (s.current_batch_size + 1)
        else s.current_batch_size
      adaptive_gas_multiplier := max 1 (s.adaptive_gas_multiplier * (19/20)) }
  else
    { s with failed_attempts := fa }

/-- Embedding of the out-of-gas adjustment inside
update_prices_with_retry (lines 503-504): on an error message containing
"out of gas" the generator sets adaptive_gas_multiplier to
min(2.0, gm*1.3) before retrying. -/
def apply_out_of_gas_multiplier (s : AdaptiveState) : AdaptiveState :=
  { s with adaptive_gas_multiplier := min 2 (s.adaptive_gas_multiplier * (13/10)) }

/-- Reachability of an adaptive state from the initial state by any
sequence of the three adaptive transitions of the generator. -/
inductive Reachable (cfg : PriceConfig) : AdaptiveState → Prop
  | init : Reachable cfg initState
  | failure {s : AdaptiveState} :
      Reachable cfg s → Reachable cfg (adjust_batch_size_on_failure s)
  | success {s : AdaptiveState} :
      Reachable cfg s → Reachable cfg (reset_adaptive_params_on_success cfg s)
  | outOfGas {s : AdaptiveState} :
      Reachable cfg s → Reachable cfg (apply_out_of_gas_multiplier s)

/-- Embedding of PriceGenerator.get_smart_gas_limit (lines 119-131).
This is the gas-limit function actually used for submissions (called at
line 435 of update_prices_with_retry).  Note that it scales by
(1 + failed_attempts * 0.1), not by adaptive_gas_multiplier, and the cap
is the hardcoded literal 8000000. -/
def get_smart_gas_limit (s : AdaptiveState) (tokens_count : ℕ) (attempt : ℕ) : ℤ :=
  let base_gas : ℕ :=
    if tokens_count = 1 then 800000
    else if tokens_count ≤ 3 then 2500000
    else 1500000 + tokens_count * 700000
  let retry_multiplier : ℚ := 1 + (attempt : ℚ) * (1/5)
  let failure_multiplier : ℚ := 1 + (s.failed_attempts : ℚ) * (1/10)
  min (py_int ((base_gas : ℚ) * retry_multiplier * failure_multiplier)) 8000000

/-- Embedding of PriceGenerator.get_adaptive_gas_limit (lines 385-390).
This variant does use adaptive_gas_multiplier and the configured
max_gas_limit, but it is not called on the submission path. -/
def get_adaptive_gas_limit (cfg : PriceConfig) (s : AdaptiveState) (num_tokens : ℕ) : ℤ :=
  let base_gas_per_token : ℕ := cfg.base_gas_limit / 6
  let gas_limit : ℕ := base_gas_per_token * num_tokens
  min (py_int ((gas_limit : ℚ) * s.adaptive_gas_multiplier)) (cfg.max_gas_limit : ℤ)

/-- Embedding of PriceGenerator.get_dynamic_gas_price (lines 365-379),
the non-exception path, parametrized by the live network gas price in
gwei.  Returns the final integer gwei value (the code then converts it
to wei with Web3.to_wei). -/
def get_dynamic_gas_price (cfg : PriceConfig) (s : AdaptiveState)
    (network_gas_price_gwei : ℚ) : ℤ :=
  let adjusted_gas_price : ℚ :=
    max (cfg.base_gas_price_gwei : ℚ)
      (min (network_gas_price_gwei * (6/5)) (cfg.max_gas_price_gwei : ℚ))
  py_int (adjusted_gas_price * s.adaptive_gas_multiplier)

/-- The clamp of PriceGenerator.generate_price (lines 358-360): the raw
random change, abstracted here as an arbitrary rational parameter
(it is (random.random() - 0.5) * 2 * volatility, with the volatility
possibly scaled by a volatile event), clamped to
[-max_price_change, max_price_change]. -/
def clamped_change (cfg : PriceConfig) (raw_change : ℚ) : ℚ :=
  max (-cfg.max_price_change) (min cfg.max_price_change raw_change)

/-- Embedding of PriceGenerator.generate_price (lines 346-363) for a
token whose current price is the first argument, with the pre-clamp
random change abstracted as raw_change: the current price moves by the
clamped relative change and is then floored at min_price. -/
def generate_price (cfg : PriceConfig) (current : ℚ) (raw_change : ℚ) : ℚ :=
  let new_price := current * (1 + clamped_change cfg raw_change)
  max new_price cfg.min_price

/-- Error classification of a failed attempt inside
update_prices_with_retry (lines 503-511): the except branch matches the
error text against "out of gas", then "price change too large"
(circuit breaker), then "execution reverted"; anything else is a plain
retryable error. -/
inductive AttemptErr
  | outOfGas
  | circuitBreaker
  | reverted
  | other
deriving DecidableEq

/-- Outcome of one attempt of the retry loop of
update_prices_with_retry: the transaction confirms (receipt status 1),
the receipt reports failure (status ≠ 1, lines 483-484), the dry-run
contract call fails before broadcast (lines 454-458), or an exception is
raised and classified by AttemptErr. -/
inductive AttemptOutcome
  | success
  | statusFail
  | callFailed
  | exn (e : AttemptErr)
deriving DecidableEq

/-- An outcome that the retry loop treats as retryable: a submission
exception that is neither the circuit breaker nor an execution revert
(out-of-gas errors are retried after raising the gas multiplier). -/
def RetryableErr (o : AttemptOutcome) : Prop :=
  o = AttemptOutcome.exn AttemptErr.outOfGas ∨ o = AttemptOutcome.exn AttemptErr.other

instance (o : AttemptOutcome) : Decidable (RetryableErr o) := by
  unfold RetryableErr; infer_instance

/-- Result of one call of update_prices_with_retry: whether it returned
True, the adaptive state afterwards, how many times
reset_adaptive_params_on_success was invoked, and how many attempts were
consumed. -/
structure RetryResult where
  ok : Bool
  finalState : AdaptiveState
  onSuccessCalls : ℕ
  attemptsUsed : ℕ
deriving DecidableEq

/-- Embedding of the for-loop of update_prices_with_retry
(lines 432-517), parametrized by the outcome of each attempt.  On
success it calls reset_adaptive_params_on_success and returns True; on a
failed receipt it just moves to the next attempt; on a failed dry-run
call it returns False at once; on an exception it first applies the
out-of-gas multiplier when applicable, returns False on the two terminal
error categories, and otherwise retries.  Exhausting the loop returns
False.  Note that adjust_batch_size_on_failure is never called here. -/
def retry_loop (cfg : PriceConfig) (outcomes : ℕ → AttemptOutcome) :
    ℕ → ℕ → AdaptiveState → RetryResult
  | _, 0, s => { ok := false, finalState := s, onSuccessCalls := 0, attemptsUsed := 0 }
  | attempt, remaining + 1, s =>
    match outcomes attempt with
    | AttemptOutcome.success =>
      { ok := true, finalState := reset_adaptive_params_on_success cfg s
        onSuccessCalls := 1, attemptsUsed := 1 }
    | AttemptOutcome.statusFail =>
      let rest := retry_loop cfg outcomes (attempt + 1) remaining s
      { rest with attemptsUsed := rest.attemptsUsed + 1 }
    | AttemptOutcome.callFailed =>
      { ok := false, finalState := s, onSuccessCalls := 0, attemptsUsed := 1 }
    | AttemptOutcome.exn e =>
      let s1 := if e = AttemptErr.outOfGas then apply_out_of_gas_multiplier s else s
      if e = AttemptErr.circuitBreaker ∨ e = AttemptErr.reverted then
        { ok := false, finalState := s1, onSuccessCalls := 0, attemptsUsed := 1 }
      else
        let rest := retry_loop cfg outcomes (attempt + 1) remaining s1
        { rest with attemptsUsed := rest.attemptsUsed + 1 }

/-- Embedding of PriceGenerator.update_prices_with_retry (lines
415-517): a pre-flight balance/nonce check that returns False on failure
without consuming any attempt, then the retry loop over
cfg.retry_attempts attempts starting at attempt 0. -/
def update_prices_with_retry (cfg : PriceConfig) (preflightOk : Bool)
    (outcomes : ℕ → AttemptOutcome) (s : AdaptiveState) : RetryResult :=
  if preflightOk then retry_loop cfg outcomes 0 cfg.retry_attempts s
  else { ok := false, finalState := s, onSuccessCalls := 0, attemptsUsed := 0 }

/-- Report of the handling of one batch inside PriceGenerator.
update_prices (lines 553-564): final adaptive state, number of
adjust_batch_size_on_failure calls, number of
reset_adaptive_params_on_success calls, the list of submissions made
(items passed to update_prices_with_retry, with the attempts each call
consumed), and whether the batched submission itself succeeded. -/
structure BatchReport (α : Type) where
  finalState : AdaptiveState
  onFailureCalls : ℕ
  onSuccessCalls : ℕ
  submissions : List (List α × ℕ)
  batchOk : Bool

/-- Embedding of the individual fallback of update_prices (lines
559-564): each item of the failed batch is re-submitted on its own via
update_prices_with_retry, in the original order, threading the adaptive
state; a failed individual submission triggers no further handling. -/
def run_individual_fallback {α : Type} (cfg : PriceConfig)
    (outcomesFor : α → ℕ → AttemptOutcome) :
    List α → AdaptiveState → AdaptiveState × ℕ × List (List α × ℕ)
  | [], s => (s, 0, [])
  | a :: rest, s =>
    let r := update_prices_with_retry cfg true (outcomesFor a) s
    let next := run_individual_fallback cfg outcomesFor rest r.finalState
    (next.1, r.onSuccessCalls + next.2.1, ([a], r.attemptsUsed) :: next.2.2)

/-- Embedding of the per-batch body of PriceGenerator.update_prices
(lines 553-564): submit the batch with retries; on failure call
adjust_batch_size_on_failure once and, when the batch has more than one
member, fall back to individual submissions. -/
def process_batch {α : Type} (cfg : PriceConfig) (batch : List α)
    (batchOutcomes : ℕ → AttemptOutcome) (outcomesFor : α → ℕ → AttemptOutcome)
    (s : AdaptiveState) : BatchReport α :=
  let r := update_prices_with_retry cfg true batchOutcomes s
  if r.ok then
    { finalState := r.finalState, onFailureCalls := 0
      onSuccessCalls := r.onSuccessCalls
      submissions := [(batch, r.attemptsUsed)], batchOk := true }
  else
    let s1 := adjust_batch_size_on_failure r.finalState
    if 1 < batch.length then
      let fb := run_individual_fallback cfg outcomesFor batch s1
      { finalState := fb.1, onFailureCalls := 1
        onSuccessCalls := r.onSuccessCalls + fb.2.1
        submissions := (batch, r.attemptsUsed) :: fb.2.2, batchOk := false }
    else
      { finalState := s1, onFailureCalls := 1
        onSuccessCalls := r.onSuccessCalls
        submissions := [(batch, r.attemptsUsed)], batchOk := false }

/-- Embedding of the dataclass KeeperConfig (src/keeper/config.py, lines
27-44); the tokens dictionary is not consumed by any embedded operation
and is omitted. -/
structure KeeperConfig where
  rpc_url : String
  private_key : String
  keeper_address : String
  order_check_interval : ℤ
  position_check_interval : ℤ
  oracle_check_interval : ℤ
  liquidation_threshold : ℤ
  max_gas_price : ℤ
  gas_limit : ℤ
  log_level : String
  enable_diagnostics : Bool
  diagnostics_interval : ℤ
  contracts : List (String × String)

/-- Embedding of ConfigManager.get_contract_address (config.py, lines
135-139): a missing Router entry falls back to RouterProxy. -/
def get_contract_address (cfg : KeeperConfig) (contract_name : String) : String :=
  let address := ((cfg.contracts.lookup contract_name).getD "")
  if address = "" && contract_name = "Router" then
    ((cfg.contracts.lookup "RouterProxy").getD "")
  else address

/-- Embedding of ConfigManager.validate_config (config.py, lines
144-155), returning the list of error strings in source order. -/
def validate_config (cfg : KeeperConfig) : List String :=
  (if cfg.private_key = "" then ["Private key not set"] else []) ++
  (if get_contract_address cfg "Router" = "" then ["Contract Router address not found"] else []) ++
  (if cfg.order_check_interval < 1 then ["Order check interval must be >= 1"] else []) ++
  (if 0 ≤ cfg.liquidation_threshold then ["Liquidation threshold must be negative"] else [])

/-- Position record as consumed by the keeper (the PositionInfo class
lives in the keeper's contracts.py module, outside the embedded files);
only the fields read by calculate_pnl_ratio and _check_positions are
modelled.  position_type 0 is a long position; entry_price is the
integer wei price. -/
structure PositionInfo where
  position_type : ℕ
  entry_price : ℤ
  is_open : Bool
deriving DecidableEq

/-- Embedding of DiagnosticService.calculate_pnl_ratio
(diagnostics.py, lines 175-190), parametrized by the oracle price read
for the position's token: none models both a None return and a raised
exception (either way the function returns 0.0). -/
def calculate_pnl_ratio (current_price : Option ℤ) (position : PositionInfo) : ℚ :=
  match current_price with
  | none => 0
  | some p =>
    if position.position_type = 0 then
      (((p : ℚ) - (position.entry_price : ℚ)) * 100) / (position.entry_price : ℚ)
    else
      (((position.entry_price : ℚ) - (p : ℚ)) * 100) / (position.entry_price : ℚ)

/-- Embedding of the liquidation-candidate test of
KeeperService._check_positions (keeper_service.py, lines 216-226): an
open position is a candidate exactly when its PnL ratio is ≤ the
configured liquidation threshold (inclusive comparison); closed
positions are skipped. -/
def is_liquidation_candidate (threshold : ℤ) (current_price : Option ℤ)
    (position : PositionInfo) : Bool :=
  position.is_open && decide (calculate_pnl_ratio current_price position ≤ (threshold : ℚ))

/-! Basic lemmas about the adaptive transitions. -/

/-- adjust_batch_size_on_failure always increments failed_attempts by
exactly one. -/
lemma adjust_failed_attempts (s : AdaptiveState) :
    (adjust_batch_size_on_failure s).failed_attempts = s.failed_attempts + 1 := by
  simp only [adjust_batch_size_on_failure]
  split_ifs <;> rfl

/-- When the incremented failure counter reaches 4, the failure
transition forces batch size 1 and gas multiplier 2. -/
lemma adjust_full_degradation (s : AdaptiveState) (h : 3 ≤ s.failed_attempts) :
    (adjust_batch_size_on_failure s).current_batch_size = 1 ∧
    (adjust_batch_size_on_failure s).adaptive_gas_multiplier = 2 := by
  simp only [adjust_batch_size_on_failure]
  split_ifs <;> first | exact ⟨rfl, rfl⟩ | omega

/-- reset_adaptive_params_on_success decrements failed_attempts with
floor zero (truncated subtraction). -/
lemma reset_failed_attempts (cfg : PriceConfig) (s : AdaptiveState) :
    (reset_adaptive_params_on_success cfg s).failed_attempts = s.failed_attempts - 1 := by
  simp only [reset_adaptive_params_on_success]
  split_ifs <;> simp <;> omega

/-- While at least two failures are recorded, the success transition
only decrements the counter and leaves batch size and gas multiplier
untouched. -/
lemma reset_keeps_params (cfg : PriceConfig) (s : AdaptiveState)
    (h : 2 ≤ s.failed_attempts) :
    (reset_adaptive_params_on_success cfg s).current_batch_size = s.current_batch_size ∧
    (reset_adaptive_params_on_success cfg s).adaptive_gas_multiplier = s.adaptive_gas_multiplier := by
  simp only [reset_adaptive_params_on_success]
  split_ifs <;> first | exact ⟨rfl, rfl⟩ | omega

/-- C1: full degradation invariant.  In every adaptive state reachable
from the initial state (failedAttempts = 0, batchSize = 6,
gasMultiplier = 1.0) by any sequence of the failure transition, the
success transition and the out-of-gas multiplier adjustment, once
failedAttempts ≥ 4 the batch size is 1 and the gas multiplier is
exactly 2.0. -/
theorem adaptive_full_degradation (cfg : PriceConfig) (s : AdaptiveState)
    (hs : Reachable cfg s) (h4 : 4 ≤ s.failed_attempts) :
    s.current_batch_size = 1 ∧ s.adaptive_gas_multiplier = 2 := by
  revert h4
  induction hs with
  | init => intro h4; simp [initState] at h4
  | @failure t hr ih =>
    intro h4
    rw [adjust_failed_attempts] at h4
    exact adjust_full_degradation t (by omega)
  | @success t hr ih =>
    intro h4
    rw [reset_failed_attempts] at h4
    have hkeep := reset_keeps_params cfg t (by omega)
    rw [hkeep.1, hkeep.2]
    exact ih (by omega)
  | @outOfGas t hr ih =>
    intro h4
    have hprev := ih h4
    refine ⟨hprev.1, ?_⟩
    show min 2 (_ * (13/10)) = 2
    rw [hprev.2]
    norm_num

/-- Witness for C1: after four consecutive failure transitions the state
is reachable, has failedAttempts = 4 and is fully degraded. -/
theorem adaptive_full_degradation_witness :
    (adjust_batch_size_on_failure (adjust_batch_size_on_failure (adjust_batch_size_on_failure
      (adjust_batch_size_on_failure initState)))).current_batch_size = 1 ∧
    (adjust_batch_size_on_failure (adjust_batch_size_on_failure (adjust_batch_size_on_failure
      (adjust_batch_size_on_failure initState)))).adaptive_gas_multiplier = 2 :=
  adaptive_full_degradation defaultPriceConfig _
    (Reachable.failure (Reachable.failure (Reachable.failure (Reachable.failure
      Reachable.init))))
    (by decide)

/-- The gas multiplier after a failure transition is 2, the capped
raise, or unchanged. -/
lemma adjust_gm_cases (s : AdaptiveState) :
    (adjust_batch_size_on_failure s).adaptive_gas_multiplier = 2 ∨
    (adjust_batch_size_on_failure s).adaptive_gas_multiplier =
      min 2 (s.adaptive_gas_multiplier * (6/5)) ∨
    (adjust_batch_size_on_failure s).adaptive_gas_multiplier = s.adaptive_gas_multiplier := by
  simp only [adjust_batch_size_on_failure]
  split_ifs <;> simp

/-- The gas multiplier after a success transition is the floored
relaxation or unchanged. -/
lemma reset_gm_cases (cfg : PriceConfig) (s : AdaptiveState) :
    (reset_adaptive_params_on_success cfg s).adaptive_gas_multiplier =
      max 1 (s.adaptive_gas_multiplier * (19/20)) ∨
    (reset_adaptive_params_on_success cfg s).adaptive_gas_multiplier =
      s.adaptive_gas_multiplier := by
  simp only [reset_adaptive_params_on_success]
  split_ifs <;> simp

/-- In every reachable adaptive state the gas multiplier stays in
[1.0, 2.0]. -/
lemma gas_multiplier_bounds (cfg : PriceConfig) (s : AdaptiveState)
    (hs : Reachable cfg s) :
    1 ≤ s.adaptive_gas_multiplier ∧ s.adaptive_gas_multiplier ≤ 2 := by
  induction hs with
  | init => norm_num [initState]
  | @failure t hr ih =>
    obtain ⟨h1, h2⟩ := ih
    rcases adjust_gm_cases t with h | h | h <;> rw [h]
    · norm_num
    · refine ⟨le_min (by norm_num) (by nlinarith), min_le_left _ _⟩
    · exact ⟨h1, h2⟩
  | @success t hr ih =>
    obtain ⟨h1, h2⟩ := ih
    rcases reset_gm_cases cfg t with h | h <;> rw [h]
    · exact ⟨le_max_left _ _, max_le (by norm_num) (by nlinarith)⟩
    · exact ⟨h1, h2⟩
  | @outOfGas t hr ih =>
    obtain ⟨h1, h2⟩ := ih
    constructor
    · exact le_min (by norm_num) (by nlinarith)
    · exact min_le_left _ _

/-- The batch size after a failure transition is 1, the floored
decrement, or unchanged. -/
lemma adjust_bs_cases (s : AdaptiveState) :
    (adjust_batch_size_on_failure s).current_batch_size = 1 ∨
    (adjust_batch_size_on_failure s).current_batch_size = max 2 (s.current_batch_size - 1) ∨
    (adjust_batch_size_on_failure s).current_batch_size = s.current_batch_size := by
  simp only [adjust_batch_size_on_failure]
  split_ifs <;> simp

/-- A success transition never shrinks the batch size. -/
lemma reset_bs_mono (cfg : PriceConfig) (s : AdaptiveState) :
    s.current_batch_size ≤ (reset_adaptive_params_on_success cfg s).current_batch_size := by
  simp only [reset_adaptive_params_on_success]
  split_ifs <;> dsimp only <;> omega

/-- A failure transition never pushes the batch size above
max 2 (previous batch size). -/
lemma adjust_bs_le (s : AdaptiveState) :
    (adjust_batch_size_on_failure s).current_batch_size ≤ max 2 s.current_batch_size := by
  rcases adjust_bs_cases s with h | h | h <;> rw [h] <;> omega

/-- In every reachable adaptive state the batch size stays in
[1, max_batch_size], provided the configured maximum is at least the
initial batch size 6. -/
lemma batch_size_bounds (cfg : PriceConfig) (s : AdaptiveState)
    (hmax : 6 ≤ cfg.max_batch_size) (hs : Reachable cfg s) :
    1 ≤ s.current_batch_size ∧ s.current_batch_size ≤ cfg.max_batch_size := by
  induction hs with
  | init => exact ⟨by norm_num [initState], by simp only [initState]; omega⟩
  | @failure t hr ih =>
    obtain ⟨h1, h2⟩ := ih
    rcases adjust_bs_cases t with h | h | h <;> rw [h] <;> omega
  | @success t hr ih =>
    obtain ⟨h1, h2⟩ := ih
    simp only [reset_adaptive_params_on_success]
    split_ifs <;> dsimp only <;> omega
  | @outOfGas t hr ih => exact ih

/-- A reachable state with batch size 1 and failed_attempts 1, obtained
by four failures followed by three successes. -/
def degradedRecoveringState : AdaptiveState :=
  reset_adaptive_params_on_success defaultPriceConfig
    (reset_adaptive_params_on_success defaultPriceConfig
      (reset_adaptive_params_on_success defaultPriceConfig
        (adjust_batch_size_on_failure (adjust_batch_size_on_failure
          (adjust_batch_size_on_failure (adjust_batch_size_on_failure initState))))))

/-- Counterexample to C4 as stated: from the reachable state with
batch size 1 (four failures then three successes), one more failure
transition RAISES the batch size from 1 to 2, because the code sets it
to max(2, batchSize - 1). -/
theorem batch_size_failure_monotonicity_counterexample :
    Reachable defaultPriceConfig degradedRecoveringState ∧
    degradedRecoveringState.current_batch_size = 1 ∧
    (adjust_batch_size_on_failure degradedRecoveringState).current_batch_size = 2 := by
  refine ⟨?_, by decide, by decide⟩
  exact Reachable.success (Reachable.success (Reachable.success (Reachable.failure
    (Reachable.failure (Reachable.failure (Reachable.failure Reachable.init))))))

/-- C4 (amended): along adaptive transitions from the initial state,
with the configured maxBatchSize fixed and at least the initial batch
size 6: a failure step never increases the batch size unless the batch
size is already below 2 (it can only rise to 2, the floor of the
decrement branch); a success step never decreases it; and every
reachable state keeps it within [1, maxBatchSize]. -/
theorem batch_size_adaptive_properties (cfg : PriceConfig) (s : AdaptiveState)
    (hmax : 6 ≤ cfg.max_batch_size) (hs : Reachable cfg s) :
    (adjust_batch_size_on_failure s).current_batch_size ≤ max 2 s.current_batch_size ∧
    (2 ≤ s.current_batch_size →
      (adjust_batch_size_on_failure s).current_batch_size ≤ s.current_batch_size) ∧
    s.current_batch_size ≤ (reset_adaptive_params_on_success cfg s).current_batch_size ∧
    1 ≤ s.current_batch_size ∧ s.current_batch_size ≤ cfg.max_batch_size := by
  refine ⟨adjust_bs_le s, ?_, reset_bs_mono cfg s, batch_size_bounds cfg s hmax hs⟩
  intro h2
  rcases adjust_bs_cases s with h | h | h <;> rw [h] <;> omega

/-- Witness for C4 (amended) at the initial state with the default
configuration. -/
theorem batch_size_adaptive_properties_witness :
    (adjust_batch_size_on_failure initState).current_batch_size ≤
      max 2 initState.current_batch_size ∧
    (2 ≤ initState.current_batch_size →
      (adjust_batch_size_on_failure initState).current_batch_size ≤
        initState.current_batch_size) ∧
    initState.current_batch_size ≤
      (reset_adaptive_params_on_success defaultPriceConfig initState).current_batch_size ∧
    1 ≤ initState.current_batch_size ∧
    initState.current_batch_size ≤ defaultPriceConfig.max_batch_size :=
  batch_size_adaptive_properties defaultPriceConfig initState (by decide) Reachable.init

/-- Gas-limit formula as claim C2 states it: a base cost depending on
the action count, multiplied by (1 + attempt * 0.2), multiplied by the
current adaptive gas multiplier, capped at the configured maximum gas
limit. -/
def claimed_gas_limit (cfg : PriceConfig) (s : AdaptiveState) (base_gas : ℕ)
    (attempt : ℕ) : ℤ :=
  min (py_int ((base_gas : ℚ) * (1 + (attempt : ℚ) * (1/5)) * s.adaptive_gas_multiplier))
    (cfg.max_gas_limit : ℤ)

/-- The base cost of get_smart_gas_limit as a standalone function of the
action count (lines 120-125). -/
def smart_base_gas (tokens_count : ℕ) : ℕ :=
  if tokens_count = 1 then 800000
  else if tokens_count ≤ 3 then 2500000
  else 1500000 + tokens_count * 700000

/-- Gas-limit formula as amended: the base cost is multiplied by
(1 + attempt * 0.2) and by (1 + failedAttempts * 0.1) — not by the
adaptive gas multiplier — and the cap is the hardcoded 8000000, not the
configured maximum. -/
def amended_gas_limit (s : AdaptiveState) (tokens_count : ℕ) (attempt : ℕ) : ℤ :=
  min (py_int ((smart_base_gas tokens_count : ℚ) * (1 + (attempt : ℚ) * (1/5)) *
    (1 + (s.failed_attempts : ℚ) * (1/10)))) 8000000

/-- Counterexample to C2 as stated: in the reachable state produced by
one out-of-gas adjustment (gasMultiplier = 1.3, failedAttempts = 0), the
submission gas limit for one action at attempt 0 is 800000, while the
claimed formula — even granting it the code's own base cost — yields
1040000. -/
theorem smart_gas_limit_counterexample :
    Reachable defaultPriceConfig (apply_out_of_gas_multiplier initState) ∧
    get_smart_gas_limit (apply_out_of_gas_multiplier initState) 1 0 = 800000 ∧
    claimed_gas_limit defaultPriceConfig (apply_out_of_gas_multiplier initState)
      (smart_base_gas 1) 0 = 1040000 ∧
    get_smart_gas_limit (apply_out_of_gas_multiplier initState) 1 0 ≠
      claimed_gas_limit defaultPriceConfig (apply_out_of_gas_multiplier initState)
        (smart_base_gas 1) 0 := by
  refine ⟨Reachable.outOfGas Reachable.init, ?_, ?_, ?_⟩ <;>
    norm_num [get_smart_gas_limit, claimed_gas_limit, apply_out_of_gas_multiplier,
      initState, py_int, smart_base_gas, defaultPriceConfig, min_def, max_def]

/-- C2 (amended): for every adaptive state, action count and attempt,
the submission gas limit equals the base cost (800000 for one action,
2500000 for 2-3 actions, 1500000 plus 700000 per action otherwise)
multiplied by (1 + attempt * 0.2) and by (1 + failedAttempts * 0.1),
truncated to an integer and capped at the hardcoded 8000000; in
particular it depends on the adaptive state only through failedAttempts,
never through the gas multiplier. -/
theorem smart_gas_limit_formula (s : AdaptiveState) (tokens_count attempt : ℕ) :
    get_smart_gas_limit s tokens_count attempt = amended_gas_limit s tokens_count attempt ∧
    (∀ t : AdaptiveState, t.failed_attempts = s.failed_attempts →
      get_smart_gas_limit t tokens_count attempt = get_smart_gas_limit s tokens_count attempt) := by
  constructor
  · rfl
  · intro t ht
    simp only [get_smart_gas_limit, ht]

/-- Witness for C2 (amended) at the initial state, 4 actions, attempt 1,
with the gas-multiplier independence instantiated at the out-of-gas
adjusted state. -/
theorem smart_gas_limit_formula_witness :
    get_smart_gas_limit initState 4 1 = amended_gas_limit initState 4 1 ∧
    get_smart_gas_limit (apply_out_of_gas_multiplier initState) 4 1 =
      get_smart_gas_limit initState 4 1 :=
  ⟨(smart_gas_limit_formula initState 4 1).1,
   (smart_gas_limit_formula initState 4 1).2 (apply_out_of_gas_multiplier initState) (by decide)⟩

/-- The clamp of a value x to the interval [lo, hi]. -/
def clamp (lo hi x : ℚ) : ℚ := min (max x lo) hi

/-- Gas-price formula as the specification states it:
clamp(networkGasPrice * 1.2, minConfigured, maxConfigured) multiplied by
the current gas multiplier and truncated to an integer gwei value. -/
def spec_gas_price (cfg : PriceConfig) (s : AdaptiveState)
    (network_gas_price_gwei : ℚ) : ℤ :=
  py_int (clamp (cfg.base_gas_price_gwei : ℚ) (cfg.max_gas_price_gwei : ℚ)
    (network_gas_price_gwei * (6/5)) * s.adaptive_gas_multiplier)

/-- C5: whenever the configured minimum gas price does not exceed the
configured maximum, the estimated gas price computed by
get_dynamic_gas_price equals clamp(networkGasPrice * 1.2, minConfigured,
maxConfigured) * gasMultiplier truncated to an integer gwei value. -/
theorem dynamic_gas_price_clamp (cfg : PriceConfig) (s : AdaptiveState)
    (network_gas_price_gwei : ℚ)
    (h : cfg.base_gas_price_gwei ≤ cfg.max_gas_price_gwei) :
    get_dynamic_gas_price cfg s network_gas_price_gwei =
      spec_gas_price cfg s network_gas_price_gwei := by
  have hq : (cfg.base_gas_price_gwei : ℚ) ≤ (cfg.max_gas_price_gwei : ℚ) := by
    exact_mod_cast h
  simp only [get_dynamic_gas_price, spec_gas_price, clamp]
  rw [max_min_distrib_left, max_eq_right hq, max_comm]

/-- Witness for C5, the scenario of the specification: network gas price
20 gwei, configured min 10 and max 100 gwei, gas multiplier 1.0; the
estimate is 24 gwei. -/
theorem dynamic_gas_price_clamp_witness :
    ({ defaultPriceConfig with base_gas_price_gwei := 10 } : PriceConfig).base_gas_price_gwei ≤
      ({ defaultPriceConfig with base_gas_price_gwei := 10 } : PriceConfig).max_gas_price_gwei ∧
    get_dynamic_gas_price { defaultPriceConfig with base_gas_price_gwei := 10 } initState 20 =
      spec_gas_price { defaultPriceConfig with base_gas_price_gwei := 10 } initState 20 ∧
    get_dynamic_gas_price { defaultPriceConfig with base_gas_price_gwei := 10 } initState 20 = 24 :=
  ⟨by decide,
   dynamic_gas_price_clamp { defaultPriceConfig with base_gas_price_gwei := 10 } initState 20
     (by decide),
   by norm_num [get_dynamic_gas_price, initState, py_int, defaultPriceConfig,
     min_def, max_def]⟩

/-- C6: for every network gas price and every adaptive state reachable
by the adaptive transitions (whose gas multiplier therefore lies in
[1.0, 2.0]), if the configured minimum gas price is nonnegative and does
not exceed the configured maximum, the estimated gas price is at least
minConfigured gwei and at most maxConfigured * 2 gwei. -/
theorem dynamic_gas_price_bounds (cfg : PriceConfig) (s : AdaptiveState)
    (network_gas_price_gwei : ℚ) (hs : Reachable cfg s)
    (hminmax : cfg.base_gas_price_gwei ≤ cfg.max_gas_price_gwei)
    (hmin : 0 ≤ cfg.base_gas_price_gwei) :
    cfg.base_gas_price_gwei ≤ get_dynamic_gas_price cfg s network_gas_price_gwei ∧
    get_dynamic_gas_price cfg s network_gas_price_gwei ≤ 2 * cfg.max_gas_price_gwei := by
  obtain ⟨hg1, hg2⟩ := gas_multiplier_bounds cfg s hs
  have hBM : (cfg.base_gas_price_gwei : ℚ) ≤ (cfg.max_gas_price_gwei : ℚ) := by
    exact_mod_cast hminmax
  have hB0 : (0 : ℚ) ≤ (cfg.base_gas_price_gwei : ℚ) := by exact_mod_cast hmin
  simp only [get_dynamic_gas_price]
  set A : ℚ := max (cfg.base_gas_price_gwei : ℚ)
    (min (network_gas_price_gwei * (6/5)) (cfg.max_gas_price_gwei : ℚ)) with hA
  have hBA : (cfg.base_gas_price_gwei : ℚ) ≤ A := le_max_left _ _
  have hAM : A ≤ (cfg.max_gas_price_gwei : ℚ) := max_le hBM (min_le_right _ _)
  have hA0 : (0 : ℚ) ≤ A := le_trans hB0 hBA
  have hx1 : (cfg.base_gas_price_gwei : ℚ) ≤ A * s.adaptive_gas_multiplier := by nlinarith
  have hx2 : A * s.adaptive_gas_multiplier ≤ (cfg.max_gas_price_gwei : ℚ) * 2 := by nlinarith
  have hx0 : (0 : ℚ) ≤ A * s.adaptive_gas_multiplier := by nlinarith
  simp only [py_int]
  rw [if_neg (not_lt.mpr hx0)]
  constructor
  · exact Int.le_floor.mpr hx1
  · have hfl : ((⌊A * s.adaptive_gas_multiplier⌋ : ℤ) : ℚ) ≤
        ((2 * cfg.max_gas_price_gwei : ℤ) : ℚ) := by
      push_cast
      linarith [Int.floor_le (A * s.adaptive_gas_multiplier)]
    exact_mod_cast hfl

/-- Witness for C6 with the default configuration, the initial state and
a network gas price of 20 gwei. -/
theorem dynamic_gas_price_bounds_witness :
    defaultPriceConfig.base_gas_price_gwei ≤
      get_dynamic_gas_price defaultPriceConfig initState 20 ∧
    get_dynamic_gas_price defaultPriceConfig initState 20 ≤
      2 * defaultPriceConfig.max_gas_price_gwei :=
  dynamic_gas_price_bounds defaultPriceConfig initState 20 Reachable.init
    (by decide) (by decide)

/-- C10: for a token with positive current price, the generated price is
at least the configured minimum price; the relative change applied
before that floor is the raw change clamped to
[-max_price_change, max_price_change]; consequently the result never
exceeds max(min_price, current * (1 + max_price_change)). -/
theorem generate_price_bounds (cfg : PriceConfig) (current raw_change : ℚ)
    (hcur : 0 < current) (hmaxc : 0 ≤ cfg.max_price_change) :
    cfg.min_price ≤ generate_price cfg current raw_change ∧
    -cfg.max_price_change ≤ clamped_change cfg raw_change ∧
    clamped_change cfg raw_change ≤ cfg.max_price_change ∧
    generate_price cfg current raw_change ≤
      max cfg.min_price (current * (1 + cfg.max_price_change)) := by
  have hcl : clamped_change cfg raw_change ≤ cfg.max_price_change :=
    max_le (by linarith) (min_le_left _ _)
  refine ⟨le_max_right _ _, le_max_left _ _, hcl, ?_⟩
  have hmul : current * (1 + clamped_change cfg raw_change) ≤
      current * (1 + cfg.max_price_change) := by nlinarith
  exact max_le (le_trans hmul (le_max_right _ _)) (le_max_left _ _)

/-- Witness for C10 with the default configuration, current price 100
and an out-of-range raw change 2 (clamped to 0.5). -/
theorem generate_price_bounds_witness :
    defaultPriceConfig.min_price ≤ generate_price defaultPriceConfig 100 2 ∧
    -defaultPriceConfig.max_price_change ≤ clamped_change defaultPriceConfig 2 ∧
    clamped_change defaultPriceConfig 2 ≤ defaultPriceConfig.max_price_change ∧
    generate_price defaultPriceConfig 100 2 ≤
      max defaultPriceConfig.min_price (100 * (1 + defaultPriceConfig.max_price_change)) :=
  generate_price_bounds defaultPriceConfig 100 2 (by norm_num) (by norm_num [defaultPriceConfig])

/-- C7: for an open long position with nonzero entry price whose current
price reads successfully, the PnL ratio is
(currentPrice - entryPrice) * 100 / entryPrice, and the position is a
liquidation candidate exactly when that ratio is ≤ the configured
threshold (inclusive comparison). -/
theorem pnl_ratio_long_and_threshold (threshold : ℤ) (position : PositionInfo) (p : ℤ)
    (hlong : position.position_type = 0) (hopen : position.is_open = true)
    (hentry : position.entry_price ≠ 0) :
    calculate_pnl_ratio (some p) position =
      (((p : ℚ) - (position.entry_price : ℚ)) * 100) / (position.entry_price : ℚ) ∧
    (is_liquidation_candidate threshold (some p) position = true ↔
      calculate_pnl_ratio (some p) position ≤ (threshold : ℚ)) := by
  constructor
  · simp [calculate_pnl_ratio, hlong]
  · simp [is_liquidation_candidate, hopen]

/-- Witness for C7 at the threshold boundary: entry price 100, current
price 10, threshold -90; the ratio is exactly -90 and the position is
eligible. -/
theorem pnl_ratio_long_and_threshold_witness :
    calculate_pnl_ratio (some 10)
        { position_type := 0, entry_price := 100, is_open := true } =
      (((10 : ℤ) : ℚ) - (((100 : ℤ) : ℚ))) * 100 / (((100 : ℤ) : ℚ)) ∧
    (is_liquidation_candidate (-90) (some 10)
        { position_type := 0, entry_price := 100, is_open := true } = true ↔
      calculate_pnl_ratio (some 10)
        { position_type := 0, entry_price := 100, is_open := true } ≤ ((-90 : ℤ) : ℚ)) ∧
    is_liquidation_candidate (-90) (some 10)
      { position_type := 0, entry_price := 100, is_open := true } = true :=
  ⟨(pnl_ratio_long_and_threshold (-90)
      { position_type := 0, entry_price := 100, is_open := true } 10 rfl rfl (by decide)).1,
   (pnl_ratio_long_and_threshold (-90)
      { position_type := 0, entry_price := 100, is_open := true } 10 rfl rfl (by decide)).2,
   by norm_num [is_liquidation_candidate, calculate_pnl_ratio]⟩

/-- C9: if the keeper configuration passes startup validation (in
particular the liquidation threshold is negative), a position whose
current price cannot be read gets PnL ratio 0.0 and is never flagged as
a liquidation candidate, hence never liquidated. -/
theorem unavailable_price_no_liquidation (cfg : KeeperConfig) (position : PositionInfo)
    (hvalid : validate_config cfg = []) :
    calculate_pnl_ratio none position = 0 ∧
    is_liquidation_candidate cfg.liquidation_threshold none position = false := by
  have hneg : cfg.liquidation_threshold < 0 := by
    by_contra hge
    push_neg at hge
    simp [validate_config, List.append_eq_nil, hge] at hvalid
  refine ⟨rfl, ?_⟩
  have hnot : ¬ (calculate_pnl_ratio none position ≤ (cfg.liquidation_threshold : ℚ)) := by
    simp only [calculate_pnl_ratio]
    push_neg
    exact_mod_cast hneg
  simp [is_liquidation_candidate, hnot]

/-- Witness for C9 with a configuration that passes validation
(threshold -90) and a short position with unreadable price. -/
theorem unavailable_price_no_liquidation_witness :
    calculate_pnl_ratio none { position_type := 1, entry_price := 50, is_open := true } = 0 ∧
    is_liquidation_candidate
      ({ rpc_url := "http://localhost:8545", private_key := "0xabc", keeper_address := "",
         order_check_interval := 5, position_check_interval := 8, oracle_check_interval := 10,
         liquidation_threshold := -90, max_gas_price := 50000000000, gas_limit := 500000,
         log_level := "INFO", enable_diagnostics := true, diagnostics_interval := 30,
         contracts := [("Router", "0x1")] } : KeeperConfig).liquidation_threshold
      none { position_type := 1, entry_price := 50, is_open := true } = false :=
  unavailable_price_no_liquidation
    { rpc_url := "http://localhost:8545", private_key := "0xabc", keeper_address := "",
      order_check_interval := 5, position_check_interval := 8, oracle_check_interval := 10,
      liquidation_threshold := -90, max_gas_price := 50000000000, gas_limit := 500000,
      log_level := "INFO", enable_diagnostics := true, diagnostics_interval := 30,
      contracts := [("Router", "0x1")] }
    { position_type := 1, entry_price := 50, is_open := true } (by decide)

/-- If every attempt in the window fails with a retryable error, the
retry loop returns False with no success call, consumes all remaining
attempts, and leaves failed_attempts and the batch size unchanged (the
loop never calls adjust_batch_size_on_failure). -/
lemma retry_loop_all_retryable (cfg : PriceConfig) (outcomes : ℕ → AttemptOutcome) :
    ∀ (r attempt : ℕ) (s : AdaptiveState),
      (∀ i, attempt ≤ i → i < attempt + r → RetryableErr (outcomes i)) →
      (retry_loop cfg outcomes attempt r s).ok = false ∧
      (retry_loop cfg outcomes attempt r s).onSuccessCalls = 0 ∧
      (retry_loop cfg outcomes attempt r s).attemptsUsed = r ∧
      (retry_loop cfg outcomes attempt r s).finalState.failed_attempts = s.failed_attempts ∧
      (retry_loop cfg outcomes attempt r s).finalState.current_batch_size =
        s.current_batch_size := by
  intro r
  induction r with
  | zero => intro attempt s h; exact ⟨rfl, rfl, rfl, rfl, rfl⟩
  | succ n ih =>
    intro attempt s h
    have h0 : RetryableErr (outcomes attempt) := h attempt le_rfl (by omega)
    have hrest : ∀ i, attempt + 1 ≤ i → i < (attempt + 1) + n → RetryableErr (outcomes i) := by
      intro i h1 h2
      exact h i (by omega) (by omega)
    rcases h0 with h0 | h0
    · obtain ⟨hok, hsucc, hatt, hfa, hbs⟩ := ih (attempt + 1) (apply_out_of_gas_multiplier s) hrest
      have hfa2 : (retry_loop cfg outcomes (attempt + 1) n
          (apply_out_of_gas_multiplier s)).finalState.failed_attempts = s.failed_attempts := by
        rw [hfa]; rfl
      have hbs2 : (retry_loop cfg outcomes (attempt + 1) n
          (apply_out_of_gas_multiplier s)).finalState.current_batch_size =
            s.current_batch_size := by
        rw [hbs]; rfl
      simp [retry_loop, h0, hok, hsucc, hatt, hfa2, hbs2]
    · obtain ⟨hok, hsucc, hatt, hfa, hbs⟩ := ih (attempt + 1) s hrest
      simp [retry_loop, h0, hok, hsucc, hatt, hfa, hbs]

/-- The retry loop never consumes more attempts than remain. -/
lemma retry_loop_attempts_le (cfg : PriceConfig) (outcomes : ℕ → AttemptOutcome) :
    ∀ (r attempt : ℕ) (s : AdaptiveState),
      (retry_loop cfg outcomes attempt r s).attemptsUsed ≤ r := by
  intro r
  induction r with
  | zero => intro attempt s; exact le_rfl
  | succ n ih =>
    intro attempt s
    cases houtcome : outcomes attempt with
    | success => simp [retry_loop, houtcome]
    | statusFail =>
      simp only [retry_loop, houtcome]
      have := ih (attempt + 1) s
      omega
    | callFailed => simp [retry_loop, houtcome]
    | exn e =>
      cases e with
      | outOfGas =>
        simp only [retry_loop, houtcome]
        have := ih (attempt + 1) (apply_out_of_gas_multiplier s)
        simp
        omega
      | circuitBreaker => simp [retry_loop, houtcome]
      | reverted => simp [retry_loop, houtcome]
      | other =>
        simp only [retry_loop, houtcome]
        have := ih (attempt + 1) s
        simp
        omega

/-- The number of attempts consumed by the retry loop depends only on
the outcomes, never on the adaptive state it starts from. -/
lemma retry_loop_attempts_state_irrel (cfg : PriceConfig) (outcomes : ℕ → AttemptOutcome) :
    ∀ (r attempt : ℕ) (s t : AdaptiveState),
      (retry_loop cfg outcomes attempt r s).attemptsUsed =
        (retry_loop cfg outcomes attempt r t).attemptsUsed := by
  intro r
  induction r with
  | zero => intro attempt s t; rfl
  | succ n ih =>
    intro attempt s t
    cases houtcome : outcomes attempt with
    | success => simp [retry_loop, houtcome]
    | statusFail =>
      simp only [retry_loop, houtcome]
      simp [ih (attempt + 1) s t]
    | callFailed => simp [retry_loop, houtcome]
    | exn e =>
      cases e with
      | outOfGas =>
        simp only [retry_loop, houtcome]
        simp [ih (attempt + 1) (apply_out_of_gas_multiplier s) (apply_out_of_gas_multiplier t)]
      | circuitBreaker => simp [retry_loop, houtcome]
      | reverted => simp [retry_loop, houtcome]
      | other =>
        simp only [retry_loop, houtcome]
        simp [ih (attempt + 1) s t]

/-- The individual fallback submits exactly one singleton per item of
the failed batch, in the original order, and the attempts each singleton
consumes do not depend on the threaded adaptive state. -/
lemma run_individual_fallback_trace {α : Type} (cfg : PriceConfig)
    (outcomesFor : α → ℕ → AttemptOutcome) :
    ∀ (l : List α) (s : AdaptiveState),
      (run_individual_fallback cfg outcomesFor l s).2.2 =
        l.map (fun a => ([a],
          (update_prices_with_retry cfg true (outcomesFor a) initState).attemptsUsed)) := by
  intro l
  induction l with
  | nil => intro s; rfl
  | cons a rest ih =>
    intro s
    simp only [run_individual_fallback, List.map_cons, List.cons.injEq]
    refine ⟨?_, ih _⟩
    simp only [update_prices_with_retry, if_true, Prod.mk.injEq, true_and]
    exact retry_loop_attempts_state_irrel cfg (outcomesFor a) cfg.retry_attempts 0 s initState

/-- Counterexample to C3 as stated: with retry_attempts = 3 and every
attempt for a single action failing with a retryable error, the action
is given up, but adjust_batch_size_on_failure runs only ONCE (by the
caller update_prices, after the retries exhaust), so failedAttempts
rises by 1, not by 3; the retry loop itself never invokes it. -/
theorem retry_exhaustion_counterexample :
    (process_batch { defaultPriceConfig with retry_attempts := 3 } [(0 : ℕ)]
      (fun _ => AttemptOutcome.exn AttemptErr.other)
      (fun _ _ => AttemptOutcome.exn AttemptErr.other) initState).batchOk = false ∧
    (process_batch { defaultPriceConfig with retry_attempts := 3 } [(0 : ℕ)]
      (fun _ => AttemptOutcome.exn AttemptErr.other)
      (fun _ _ => AttemptOutcome.exn AttemptErr.other) initState).onFailureCalls = 1 ∧
    (process_batch { defaultPriceConfig with retry_attempts := 3 } [(0 : ℕ)]
      (fun _ => AttemptOutcome.exn AttemptErr.other)
      (fun _ _ => AttemptOutcome.exn AttemptErr.other) initState).onFailureCalls ≠ 3 ∧
    (process_batch { defaultPriceConfig with retry_attempts := 3 } [(0 : ℕ)]
      (fun _ => AttemptOutcome.exn AttemptErr.other)
      (fun _ _ => AttemptOutcome.exn AttemptErr.other) initState).onSuccessCalls = 0 ∧
    (process_batch { defaultPriceConfig with retry_attempts := 3 } [(0 : ℕ)]
      (fun _ => AttemptOutcome.exn AttemptErr.other)
      (fun _ _ => AttemptOutcome.exn AttemptErr.other) initState).finalState.failed_attempts =
      initState.failed_attempts + 1 ∧
    (process_batch { defaultPriceConfig with retry_attempts := 3 } [(0 : ℕ)]
      (fun _ => AttemptOutcome.exn AttemptErr.other)
      (fun _ _ => AttemptOutcome.exn AttemptErr.other) initState).finalState.failed_attempts ≠
      initState.failed_attempts + 3 := by
  refine ⟨by decide, by decide, by decide, by decide, by decide, by decide⟩

/-- C3 (amended): if every one of the 3 attempts for a single action
fails with a retryable error and maxRetryAttempts = 3, the action ends
given up (the batch flag is False), adjust_batch_size_on_failure is
invoked exactly once — by update_prices after the retries exhaust, not
once per attempt — so failedAttempts increases by exactly 1, and
reset_adaptive_params_on_success is never invoked. -/
theorem single_action_retry_exhaustion (cfg : PriceConfig) (hretry : cfg.retry_attempts = 3)
    (outcomes : ℕ → AttemptOutcome)
    (houtcomes : ∀ i, i < 3 → RetryableErr (outcomes i))
    (outcomesFor : ℕ → ℕ → AttemptOutcome) (a : ℕ) (s : AdaptiveState) :
    (process_batch cfg [a] outcomes outcomesFor s).batchOk = false ∧
    (process_batch cfg [a] outcomes outcomesFor s).onFailureCalls = 1 ∧
    (process_batch cfg [a] outcomes outcomesFor s).onSuccessCalls = 0 ∧
    (process_batch cfg [a] outcomes outcomesFor s).finalState.failed_attempts =
      s.failed_attempts + 1 := by
  obtain ⟨hok, hsucc, hatt, hfa, hbs⟩ :=
    retry_loop_all_retryable cfg outcomes 3 0 s
      (by intro i h1 h2; exact houtcomes i (by omega))
  have hfa1 : (adjust_batch_size_on_failure
      (retry_loop cfg outcomes 0 3 s).finalState).failed_attempts = s.failed_attempts + 1 := by
    rw [adjust_failed_attempts, hfa]
  simp [process_batch, update_prices_with_retry, hretry, hok, hsucc, hfa1]

/-- Witness for C3 (amended) with the default configuration set to 3
retries and all attempts failing out-of-gas. -/
theorem single_action_retry_exhaustion_witness :
    (process_batch { defaultPriceConfig with retry_attempts := 3 } [(7 : ℕ)]
      (fun _ => AttemptOutcome.exn AttemptErr.outOfGas)
      (fun _ _ => AttemptOutcome.exn AttemptErr.other) initState).batchOk = false ∧
    (process_batch { defaultPriceConfig with retry_attempts := 3 } [(7 : ℕ)]
      (fun _ => AttemptOutcome.exn AttemptErr.outOfGas)
      (fun _ _ => AttemptOutcome.exn AttemptErr.other) initState).onFailureCalls = 1 ∧
    (process_batch { defaultPriceConfig with retry_attempts := 3 } [(7 : ℕ)]
      (fun _ => AttemptOutcome.exn AttemptErr.outOfGas)
      (fun _ _ => AttemptOutcome.exn AttemptErr.other) initState).onSuccessCalls = 0 ∧
    (process_batch { defaultPriceConfig with retry_attempts := 3 } [(7 : ℕ)]
      (fun _ => AttemptOutcome.exn AttemptErr.outOfGas)
      (fun _ _ => AttemptOutcome.exn AttemptErr.other) initState).finalState.failed_attempts =
      initState.failed_attempts + 1 :=
  single_action_retry_exhaustion { defaultPriceConfig with retry_attempts := 3 } rfl
    (fun _ => AttemptOutcome.exn AttemptErr.outOfGas) (by decide)
    (fun _ _ => AttemptOutcome.exn AttemptErr.other) 7 initState

/-- C8: when a batch of more than one price update exhausts its retries
(every attempt fails with a retryable error) and so fails as a unit, it
is re-submitted as exactly one single-item submission per original item,
in the original order; every single-item submission gets the full retry
budget — it consumes at most retry_attempts attempts regardless of the
other items, and exactly retry_attempts attempts when all of its own
attempts keep failing with retryable errors. -/
theorem batch_failure_splits_to_singletons {α : Type} (cfg : PriceConfig)
    (batch : List α) (batchOutcomes : ℕ → AttemptOutcome)
    (outcomesFor : α → ℕ → AttemptOutcome) (s : AdaptiveState)
    (hlen : 1 < batch.length)
    (hfail : ∀ i, i < cfg.retry_attempts → RetryableErr (batchOutcomes i)) :
    (process_batch cfg batch batchOutcomes outcomesFor s).batchOk = false ∧
    (process_batch cfg batch batchOutcomes outcomesFor s).submissions =
      (batch, cfg.retry_attempts) ::
        batch.map (fun a => ([a],
          (update_prices_with_retry cfg true (outcomesFor a) initState).attemptsUsed)) ∧
    (∀ a : α,
      (update_prices_with_retry cfg true (outcomesFor a) initState).attemptsUsed ≤
        cfg.retry_attempts) ∧
    (∀ a : α, (∀ i, i < cfg.retry_attempts → RetryableErr (outcomesFor a i)) →
      (update_prices_with_retry cfg true (outcomesFor a) initState).attemptsUsed =
        cfg.retry_attempts) := by
  obtain ⟨hok, hsucc, hatt, hfa, hbs⟩ :=
    retry_loop_all_retryable cfg batchOutcomes cfg.retry_attempts 0 s
      (by intro i h1 h2; exact hfail i (by omega))
  refine ⟨?_, ?_, ?_, ?_⟩
  · simp [process_batch, update_prices_with_retry, hok, hlen]
  · simp [process_batch, update_prices_with_retry, hok, hlen, hatt,
      run_individual_fallback_trace]
  · intro a
    simp only [update_prices_with_retry, if_true]
    exact retry_loop_attempts_le cfg (outcomesFor a) cfg.retry_attempts 0 initState
  · intro a ha
    obtain ⟨_, _, hatta, _, _⟩ :=
      retry_loop_all_retryable cfg (outcomesFor a) cfg.retry_attempts 0 initState
        (by intro i h1 h2; exact ha i (by omega))
    simp only [update_prices_with_retry, if_true]
    exact hatta

/-- Witness for C8: a failing batch of three items, all of whose
individual re-submissions also keep failing, instantiated at the first
item for the per-item budget statements. -/
theorem batch_failure_splits_to_singletons_witness :
    (process_batch defaultPriceConfig [(0 : ℕ), 1, 2]
      (fun _ => AttemptOutcome.exn AttemptErr.other)
      (fun _ _ => AttemptOutcome.exn AttemptErr.other) initState).batchOk = false ∧
    (process_batch defaultPriceConfig [(0 : ℕ), 1, 2]
      (fun _ => AttemptOutcome.exn AttemptErr.other)
      (fun _ _ => AttemptOutcome.exn AttemptErr.other) initState).submissions =
      ([(0 : ℕ), 1, 2], defaultPriceConfig.retry_attempts) ::
        ([(0 : ℕ), 1, 2]).map (fun a => ([a],
          (update_prices_with_retry defaultPriceConfig true
            ((fun _ _ => AttemptOutcome.exn AttemptErr.other) a) initState).attemptsUsed)) ∧
    (update_prices_with_retry defaultPriceConfig true
      ((fun _ _ => AttemptOutcome.exn AttemptErr.other) (0 : ℕ)) initState).attemptsUsed ≤
      defaultPriceConfig.retry_attempts ∧
    (update_prices_with_retry defaultPriceConfig true
      ((fun _ _ => AttemptOutcome.exn AttemptErr.other) (0 : ℕ)) initState).attemptsUsed =
      defaultPriceConfig.retry_attempts :=
  ⟨(batch_failure_splits_to_singletons defaultPriceConfig [(0 : ℕ), 1, 2]
      (fun _ => AttemptOutcome.exn AttemptErr.other)
      (fun _ _ => AttemptOutcome.exn AttemptErr.other) initState (by decide) (by decide)).1,
   (batch_failure_splits_to_singletons defaultPriceConfig [(0 : ℕ), 1, 2]
      (fun _ => AttemptOutcome.exn AttemptErr.other)
      (fun _ _ => AttemptOutcome.exn AttemptErr.other) initState (by decide) (by decide)).2.1,
   (batch_failure_splits_to_singletons defaultPriceConfig [(0 : ℕ), 1, 2]
      (fun _ => AttemptOutcome.exn AttemptErr.other)
      (fun _ _ => AttemptOutcome.exn AttemptErr.other) initState (by decide) (by decide)).2.2.1 0,
   (batch_failure_splits_to_singletons defaultPriceConfig [(0 : ℕ), 1, 2]
      (fun _ => AttemptOutcome.exn AttemptErr.other)
      (fun _ _ => AttemptOutcome.exn AttemptErr.other) initState (by decide) (by decide)).2.2.2 0
     (by decide)⟩
